import Mathlib

/-!
Verification of the EMI calculator (`src/emi_app.py`).

The computational core of the app is embedded over `ℚ` (exact arithmetic
standing in for the double-precision arithmetic of the source, whose
rounding error is irrelevant to every property below). Division in `ℚ` is
total (`x / 0 = 0`); Python's float division raises on a zero denominator,
so a second, fallible embedding `calculate_emi_checked` returns `none`
exactly when the source would hit a division by zero.
-/

/-- Embedding of `calculate_emi` (src/emi_app.py, lines 18–38):
monthly rate `annual_rate / (12 * 100)`, months `tenure_years * 12`,
EMI `principal * r * (1+r)^n / ((1+r)^n - 1)`. -/
def calculate_emi (principal : ℚ) (annual_rate : ℚ) (tenure_years : ℕ) : ℚ :=
  let monthly_rate := annual_rate / (12 * 100)
  let tenure_months := tenure_years * 12
  principal * monthly_rate * (1 + monthly_rate) ^ tenure_months /
    ((1 + monthly_rate) ^ tenure_months - 1)

/-- Fallible embedding of `calculate_emi`: Python float division raises
`ZeroDivisionError` on a zero denominator, so the result is `none` exactly
when the denominator `(1+r)^n - 1` is zero, and otherwise the same value
as `calculate_emi`. -/
def calculate_emi_checked (principal : ℚ) (annual_rate : ℚ) (tenure_years : ℕ) :
    Option ℚ :=
  let monthly_rate := annual_rate / (12 * 100)
  let tenure_months := tenure_years * 12
  let den := (1 + monthly_rate) ^ tenure_months - 1
  if den = 0 then none
  else some (principal * monthly_rate * (1 + monthly_rate) ^ tenure_months / den)

/-- The EMI formula as the spec states it (section 4.1): with
`r = annualRatePercent / (12 × 100)` and `n = tenureYears × 12`,
`EMI = principal × r × (1+r)^n / ((1+r)^n − 1)`. -/
def emiSpecFormula (P R : ℚ) (T : ℕ) : ℚ :=
  P * (R / (12 * 100)) * (1 + R / (12 * 100)) ^ (T * 12) /
    ((1 + R / (12 * 100)) ^ (T * 12) - 1)

/-- Embedding of `generate_emi_data` (src/emi_app.py, lines 41–54):
tenures `list(range(2, 31))` and the EMI for each tenure, as a pair of
parallel lists. -/
def generate_emi_data (principal : ℚ) (annual_rate : ℚ) : List ℕ × List ℚ :=
  let tenures := List.range' 2 29
  (tenures, tenures.map (fun tenure => calculate_emi principal annual_rate tenure))

/-- Renders a natural number below 100 with two digits, used for the
fractional part of a two-decimal rendering. -/
def twoDigitString (n : ℕ) : String :=
  if n < 10 then "0" ++ toString n else toString n

/-- Model of Python's `f"{x:.2f}"`: the value rounded to hundredths,
rendered with a sign, integer part, a dot and two fractional digits.
(Python rounds the underlying double half-to-even; no input verified
below lies on a tie, so the rounding choice never shows.) -/
def formatTwoDecimals (v : ℚ) : String :=
  let c : ℤ := round (v * 100)
  let sign := if c < 0 then "-" else ""
  let m := c.natAbs
  sign ++ toString (m / 100) ++ "." ++ twoDigitString (m % 100)

/-- Embedding of `format_indian_currency` (src/emi_app.py, lines 57–64). -/
def format_indian_currency (value : ℚ) : String :=
  if value ≥ 10000000 then formatTwoDecimals (value / 10000000) ++ " Cr"
  else if value ≥ 100000 then formatTwoDecimals (value / 100000) ++ " L"
  else formatTwoDecimals (value / 1000) ++ " K"

/-- The currency formatter as the spec states it (section 4.3):
thresholds ≥1e7 → value/1e7, 2 decimals, " Cr"; else ≥1e5 → value/1e5,
" L"; else value/1e3, " K". -/
def formatIndianCurrencySpec (value : ℚ) : String :=
  if value ≥ 10000000 then formatTwoDecimals (value / 10000000) ++ " Cr"
  else if value ≥ 100000 then formatTwoDecimals (value / 100000) ++ " L"
  else formatTwoDecimals (value / 1000) ++ " K"

/-- Embedding of `calculated_loan_amount` (src/emi_app.py, line 94):
`house_price * (loan_ratio / 100)`. -/
def calculated_loan_amount (house_price : ℚ) (loan_ratio : ℚ) : ℚ :=
  house_price * (loan_ratio / 100)

/-- The down payment as displayed by the app (src/emi_app.py, line 96):
`house_price - calculated_loan_amount`. -/
def down_payment (house_price : ℚ) (loan_ratio : ℚ) : ℚ :=
  house_price - calculated_loan_amount house_price loan_ratio

/-- Helper: `formatTwoDecimals` at a value whose hundredfold is the
integer `c`, with the rendering fully spelled out on `c`. -/
theorem formatTwoDecimals_of_mul_eq (v : ℚ) (c : ℤ) (h : v * 100 = (c : ℚ)) :
    formatTwoDecimals v =
      (if c < 0 then "-" else "") ++ toString (c.natAbs / 100) ++ "." ++
        twoDigitString (c.natAbs % 100) := by
  simp only [formatTwoDecimals, h, round_intCast]

/-- Helper: for `1 < a < b`, the amortization factor `x / (x - 1)` is
larger at `a` than at `b`. -/
theorem ratio_strict_anti (a b : ℚ) (ha : 1 < a) (hab : a < b) :
    b / (b - 1) < a / (a - 1) := by
  have h1 : (0:ℚ) < a - 1 := by linarith
  have h2 : (0:ℚ) < b - 1 := by linarith
  rw [div_lt_div_iff₀ h2 h1]
  nlinarith

/-- C1: for every principal `P > 0`, annual rate `R`, and positive integer
tenure `T`, `calculate_emi P R T` equals the spec's formula
`P × r × (1+r)^n / ((1+r)^n − 1)` with `r = R / (12 × 100)` and
`n = T × 12`. -/
theorem calculate_emi_eq_spec_formula (P R : ℚ) (T : ℕ)
    (hP : 0 < P) (hT : 0 < T) :
    calculate_emi P R T = emiSpecFormula P R T := by
  unfold calculate_emi emiSpecFormula
  ring_nf

/-- Witness for C1 at `P = 100`, `R = 10`, `T = 1`. -/
theorem calculate_emi_eq_spec_formula_witness :
    calculate_emi 100 10 1 = emiSpecFormula 100 10 1 :=
  calculate_emi_eq_spec_formula 100 10 1 (by norm_num) (by norm_num)

/-- C3: with a zero annual rate the monthly rate is `0`, `(1+r)^n = 1`,
and the denominator of the EMI formula is `0`; the division by zero is
unguarded, so the fallible embedding returns `none`. -/
theorem zero_rate_division_by_zero (P : ℚ) (T : ℕ) :
    (0:ℚ) / (12 * 100) = 0 ∧
    (1 + (0:ℚ) / (12 * 100)) ^ (T * 12) = 1 ∧
    (1 + (0:ℚ) / (12 * 100)) ^ (T * 12) - 1 = 0 ∧
    calculate_emi_checked P 0 T = none := by
  refine ⟨by norm_num, by norm_num, by norm_num, ?_⟩
  simp [calculate_emi_checked]

/-- C5: the EMI is linear in the principal: for `k > 0`, `P > 0`, `R > 0`
and `T > 0`, `calculate_emi (k*P) R T = k * calculate_emi P R T`. -/
theorem calculate_emi_linear_in_principal (k P R : ℚ) (T : ℕ)
    (hk : 0 < k) (hP : 0 < P) (hR : 0 < R) (hT : 0 < T) :
    calculate_emi (k * P) R T = k * calculate_emi P R T := by
  unfold calculate_emi
  ring

/-- Witness for C5 at `k = 2`, `P = 100`, `R = 10`, `T = 1`. -/
theorem calculate_emi_linear_in_principal_witness :
    calculate_emi (2 * 100) 10 1 = 2 * calculate_emi 100 10 1 :=
  calculate_emi_linear_in_principal 2 100 10 1 (by norm_num) (by norm_num)
    (by norm_num) (by norm_num)

/-- C8: the derived loan principal is `housePrice × ratioPercent / 100`
and the down payment is `housePrice − principal`; at house price
30,000,000 and ratio 80 the principal is 24,000,000 and the down payment
6,000,000. -/
theorem calculated_loan_amount_spec (hp r : ℚ) :
    calculated_loan_amount hp r = hp * r / 100 ∧
    down_payment hp r = hp - calculated_loan_amount hp r ∧
    calculated_loan_amount 30000000 80 = 24000000 ∧
    down_payment 30000000 80 = 6000000 := by
  refine ⟨?_, rfl, by norm_num [calculated_loan_amount], ?_⟩
  · unfold calculated_loan_amount; ring
  · norm_num [down_payment, calculated_loan_amount]

/-- C7: for every non-negative value the formatter follows the spec's
threshold scheme (≥1e7 → " Cr", else ≥1e5 → " L", else " K", each scaled
and shown to two decimals), and the three concrete examples hold. -/
theorem format_indian_currency_spec (v : ℚ) (h : 0 ≤ v) :
    format_indian_currency v = formatIndianCurrencySpec v ∧
    format_indian_currency 12500000 = "1.25 Cr" ∧
    format_indian_currency 250000 = "2.50 L" ∧
    format_indian_currency 5000 = "5.00 K" := by
  refine ⟨rfl, ?_, ?_, ?_⟩
  · unfold format_indian_currency
    rw [if_pos (by norm_num), formatTwoDecimals_of_mul_eq _ 125 (by norm_num)]
    decide
  · unfold format_indian_currency
    rw [if_neg (by norm_num), if_pos (by norm_num),
      formatTwoDecimals_of_mul_eq _ 250 (by norm_num)]
    decide
  · unfold format_indian_currency
    rw [if_neg (by norm_num), if_neg (by norm_num),
      formatTwoDecimals_of_mul_eq _ 500 (by norm_num)]
    decide

/-- Witness for C7 at `v = 250000`. -/
theorem format_indian_currency_spec_witness :
    format_indian_currency 250000 = "2.50 L" :=
  (format_indian_currency_spec 250000 (by norm_num)).2.2.1

/-- C10: the formatter is total; every value below 1e5, negative values
included, takes the final branch and is rendered as `value/1e3` to two
decimals followed by " K"; in particular `-5000` gives "-5.00 K". -/
theorem format_indian_currency_total_neg (v : ℚ) (h : v < 100000) :
    format_indian_currency v = formatTwoDecimals (v / 1000) ++ " K" ∧
    format_indian_currency (-5000) = "-5.00 K" := by
  constructor
  · unfold format_indian_currency
    rw [if_neg (by push_neg; linarith), if_neg (by push_neg; linarith)]
  · unfold format_indian_currency
    rw [if_neg (by norm_num), if_neg (by norm_num),
      formatTwoDecimals_of_mul_eq _ (-500) (by norm_num)]
    decide

/-- Witness for C10 at `v = -5000`. -/
theorem format_indian_currency_total_neg_witness :
    format_indian_currency (-5000) = formatTwoDecimals ((-5000) / 1000) ++ " K" :=
  (format_indian_currency_total_neg (-5000) (by norm_num)).1

/-- C2: `generate_emi_data P R` yields two parallel lists of length 29;
the tenure at index `i` is `2 + i` (so the tenures are 2,3,…,30, strictly
ascending by index), and the EMI at index `i` is `calculate_emi P R`
applied to the tenure at index `i`. -/
theorem generate_emi_data_spec (P R : ℚ) (hP : 0 < P) :
    (generate_emi_data P R).1.length = 29 ∧
    (generate_emi_data P R).2.length = 29 ∧
    (∀ i : ℕ, i < 29 → (generate_emi_data P R).1.getD i 0 = 2 + i) ∧
    (∀ j : ℕ, j < 29 → ∀ i : ℕ, i < j →
      (generate_emi_data P R).1.getD i 0 < (generate_emi_data P R).1.getD j 0) ∧
    (∀ i : ℕ, (generate_emi_data P R).2[i]? =
      ((generate_emi_data P R).1[i]?).map (calculate_emi P R)) := by
  have hfst : (generate_emi_data P R).1 = List.range' 2 29 := rfl
  refine ⟨rfl, ?_, ?_, ?_, ?_⟩
  · simp [generate_emi_data]
  · simp only [hfst]
    decide
  · simp only [hfst]
    decide
  · intro i
    simp [generate_emi_data, List.getElem?_map]

/-- Witness for C2 at `P = 1000000`, `R = 10`. -/
theorem generate_emi_data_spec_witness :
    (generate_emi_data 1000000 10).1.length = 29 :=
  (generate_emi_data_spec 1000000 10 (by norm_num)).1

/-- C6: for positive principal, rate and tenure the EMI is strictly
positive, and the computation is well defined (the fallible embedding
succeeds: no division by zero, hence a finite value). -/
theorem calculate_emi_pos_and_finite (P R : ℚ) (T : ℕ)
    (hP : 0 < P) (hR : 0 < R) (hT : 0 < T) :
    0 < calculate_emi P R T ∧
    calculate_emi_checked P R T = some (calculate_emi P R T) := by
  have hr : 0 < R / (12 * 100) := by positivity
  have hx : 1 < 1 + R / (12 * 100) := by linarith
  have hpow : 1 < (1 + R / (12 * 100)) ^ (T * 12) := one_lt_pow₀ hx (by omega)
  have hden : 0 < (1 + R / (12 * 100)) ^ (T * 12) - 1 := by linarith
  have hnum : 0 < P * (R / (12 * 100)) * (1 + R / (12 * 100)) ^ (T * 12) := by
    positivity
  constructor
  · simp only [calculate_emi]
    exact div_pos hnum hden
  · simp only [calculate_emi, calculate_emi_checked]
    rw [if_neg hden.ne']

/-- Witness for C6 at `P = 100`, `R = 12`, `T = 1`. -/
theorem calculate_emi_pos_and_finite_witness :
    0 < calculate_emi 100 12 1 ∧
    calculate_emi_checked 100 12 1 = some (calculate_emi 100 12 1) :=
  calculate_emi_pos_and_finite 100 12 1 (by norm_num) (by norm_num) (by norm_num)

/-- C4: for fixed positive principal and rate, the EMI strictly decreases
as the tenure grows: `T1 < T2` gives a strictly smaller EMI at `T2`. -/
theorem calculate_emi_strict_anti_in_tenure (P R : ℚ) (T1 T2 : ℕ)
    (hP : 0 < P) (hR : 0 < R) (hT1 : 0 < T1) (hlt : T1 < T2) :
    calculate_emi P R T2 < calculate_emi P R T1 := by
  have hr : 0 < R / (12 * 100) := by positivity
  have hx : 1 < 1 + R / (12 * 100) := by linarith
  have h1 : 1 < (1 + R / (12 * 100)) ^ (T1 * 12) := one_lt_pow₀ hx (by omega)
  have hpow : (1 + R / (12 * 100)) ^ (T1 * 12) < (1 + R / (12 * 100)) ^ (T2 * 12) :=
    pow_lt_pow_right₀ hx (by omega)
  have key := ratio_strict_anti _ _ h1 hpow
  have hPr : 0 < P * (R / (12 * 100)) := by positivity
  simp only [calculate_emi]
  calc P * (R / (12 * 100)) * (1 + R / (12 * 100)) ^ (T2 * 12) /
        ((1 + R / (12 * 100)) ^ (T2 * 12) - 1)
      = P * (R / (12 * 100)) * ((1 + R / (12 * 100)) ^ (T2 * 12) /
        ((1 + R / (12 * 100)) ^ (T2 * 12) - 1)) := by rw [mul_div_assoc]
    _ < P * (R / (12 * 100)) * ((1 + R / (12 * 100)) ^ (T1 * 12) /
        ((1 + R / (12 * 100)) ^ (T1 * 12) - 1)) := mul_lt_mul_of_pos_left key hPr
    _ = P * (R / (12 * 100)) * (1 + R / (12 * 100)) ^ (T1 * 12) /
        ((1 + R / (12 * 100)) ^ (T1 * 12) - 1) := by rw [mul_div_assoc]

/-- Witness for C4 at `P = 100`, `R = 12`, `T1 = 1`, `T2 = 2`. -/
theorem calculate_emi_strict_anti_in_tenure_witness :
    calculate_emi 100 12 2 < calculate_emi 100 12 1 :=
  calculate_emi_strict_anti_in_tenure 100 12 1 2 (by norm_num) (by norm_num)
    (by norm_num) (by norm_num)

/-- C9 counterexample: at `P = 2,400,000`, `R = 8.5`, `T = 20` the EMI is
not within ±1 of 20,847 (its exact value is 20,827.7576…, about 19 short
of that figure). -/
theorem emi_scenario_not_near_20847 :
    ¬ |calculate_emi 2400000 (8.5 : ℚ) 20 - 20847| ≤ 1 := by
  simp only [calculate_emi]
  rw [not_le, lt_abs]
  right
  norm_num

/-- C9 amended: at `P = 2,400,000`, `R = 8.5`, `T = 20` the computation
uses monthly rate `8.5 / 1200 = 17/2400` and `240` months, and the EMI is
within ±1 of 20,828. -/
theorem emi_scenario_near_20828 :
    (8.5 : ℚ) / (12 * 100) = 17 / 2400 ∧
    20 * 12 = 240 ∧
    |calculate_emi 2400000 (8.5 : ℚ) 20 - 20828| ≤ 1 := by
  refine ⟨by norm_num, rfl, ?_⟩
  simp only [calculate_emi]
  rw [abs_le]
  constructor <;> norm_num

